import Mathlib

/-!
Verification of the Smart Portal attendance subsystem.

The frontend client logic is embedded from `frontend/src/App.jsx`
(`handleMarkAttendance` and its inner `markAttendanceRequest`).  The
backend decision engine (Attendance Verifier, PIN validity, haversine
geofence, Report Aggregator) is not part of the repository sources, so
it is modelled from the specification, as flagged on each definition.
-/

namespace SmartPortal

/-! ## Frontend client model (from `frontend/src/App.jsx`) -/

/-- User roles, from the registration form options in `App.jsx`. -/
inductive Role
  | STUDENT
  | LECTURER
  | ADMIN
deriving DecidableEq, Repr

/-- The decoded JWT fields consulted by `handleMarkAttendance`:
`user.role` and `user.master_pin`.  `none` models the `master_pin`
field being absent from the token (JS `undefined`). -/
structure User where
  role : Role
  master_pin : Option String
deriving DecidableEq, Repr

/-- A JavaScript string-or-null-or-undefined value, as serialized into
the `attendance_pin` field of the request body. -/
inductive JsStr
  | undef
  | null
  | str (s : String)
deriving DecidableEq, Repr

/-- A latitude/longitude field of the request body: deleted from the
payload (`absent`), the JS `null` default, or a number. -/
inductive CoordField
  | absent
  | jsnull
  | num (x : ℚ)
deriving DecidableEq, Repr

/-- The body POSTed to `/attendance/mark/` by `markAttendanceRequest`. -/
structure MarkPayload where
  lecture : ℕ
  latitude : CoordField
  longitude : CoordField
  attendance_pin : JsStr
deriving DecidableEq, Repr

/-- The component state read and written by `handleMarkAttendance`:
the shared `loading` flag and the `attendancePin` input field. -/
structure ClientState where
  loading : Bool
  attendancePin : String
deriving DecidableEq, Repr

/-- Observable effects of one `handleMarkAttendance` invocation: the
requests POSTed to `/attendance/mark/` and the `alert` messages shown. -/
structure Effects where
  posts : List MarkPayload
  alerts : List String
deriving DecidableEq, Repr

/-- Outcome of the geolocation promise race in `handleMarkAttendance`:
`navigator.geolocation` missing, a position resolved before the 15 s
timeout, a rejection with `code === 1`, another rejection, or the
15 s race timeout. -/
inductive GeoOutcome
  | unsupported
  | position (lat lon : ℚ)
  | permissionDenied
  | otherError
  | timeout
deriving DecidableEq, Repr

/-- Outcome of the `api.post` awaited by `markAttendanceRequest`: HTTP
success, or a failure carrying the optional `response.data.detail`. -/
inductive ServerReply
  | success
  | failure (detail : Option String)
deriving DecidableEq, Repr

/-- JS truthiness of a string: truthy iff non-empty. -/
def jsTruthy (s : String) : Bool := s ≠ ""

/-- Truthiness of `user.master_pin`: an absent field is `undefined`
(falsy); a present string is truthy iff non-empty. -/
def masterPinTruthy (u : User) : Bool :=
  match u.master_pin with
  | none => false
  | some s => s ≠ ""

/-- Computes `isPinMode`: true iff the entered PIN is truthy, or the
caller has role ADMIN and a truthy `master_pin` (JS truthiness). -/
def isPinMode (u : User) (attendancePin : String) : Bool :=
  jsTruthy attendancePin || (decide (u.role = Role.ADMIN) && masterPinTruthy u)

/-- Value serialized into `attendance_pin` by the request builder:
the entered PIN when non-empty, otherwise the raw `master_pin` token
value for an ADMIN (possibly `undefined` or `""`), otherwise `null`. -/
def pinFieldValue (u : User) (attendancePin : String) : JsStr :=
  if attendancePin ≠ "" then .str attendancePin
  else if u.role = Role.ADMIN then
    match u.master_pin with
    | none => .undef
    | some s => .str s
  else .null

/-- A coordinate argument of `markAttendanceRequest` as a payload
field: the JS `null` default or a number. -/
def coordOf : Option ℚ → CoordField
  | none => .jsnull
  | some x => .num x

/-- The payload built inside `markAttendanceRequest`: in PIN mode the
`latitude`/`longitude` keys are deleted. -/
def buildPayload (u : User) (attendancePin : String) (lectureId : ℕ)
    (lat lon : Option ℚ) : MarkPayload :=
  let isPin := isPinMode u attendancePin
  { lecture := lectureId
    latitude := if isPin then .absent else coordOf lat
    longitude := if isPin then .absent else coordOf lon
    attendance_pin := pinFieldValue u attendancePin }

/-- The success alert of `markAttendanceRequest`; note it is a constant,
independent of the response body returned by the server. -/
def markSuccessMsg : String := "Attendance marked successfully! You are Present."

/-- Failure alert: the response detail when present, else the generic
network-or-server-error string. -/
def markFailedMsg (detail : Option String) : String :=
  match detail with
  | some d => d
  | none => "Attendance failed due to network or server error."

/-- Alert shown when `navigator.geolocation` is falsy. -/
def geoUnsupportedMsg : String :=
  "Geolocation is not supported by your browser for attendance."

/-- Alert shown when the geolocation race rejects with `TIMEOUT`. -/
def geoTimeoutMsg : String :=
  "Location acquisition timed out (15s). Please check signal or try again."

/-- Alert shown when `getCurrentPosition` rejects with `code === 1`. -/
def geoDeniedMsg : String :=
  "Location permission denied. Attendance failed."

/-- Alert shown on any other geolocation failure. -/
def geoFailedMsg : String :=
  "Could not get your location. Attendance failed."

/-- The alert `handleMarkAttendance` shows for each failed geolocation
outcome (unused placeholder for the success case). -/
def geoErrorMsg : GeoOutcome → String
  | .unsupported => geoUnsupportedMsg
  | .timeout => geoTimeoutMsg
  | .permissionDenied => geoDeniedMsg
  | .otherError => geoFailedMsg
  | .position _ _ => ""

/-- The inner `markAttendanceRequest(latitude, longitude)`: POST the
payload, alert the success or failure message, and in the `finally`
block always clear the entered PIN. -/
def markAttendanceRequest (u : User) (st : ClientState) (lectureId : ℕ)
    (lat lon : Option ℚ) (reply : ServerReply) : ClientState × Effects :=
  let payload := buildPayload u st.attendancePin lectureId lat lon
  let msg := match reply with
    | .success => markSuccessMsg
    | .failure d => markFailedMsg d
  ({ st with attendancePin := "" }, { posts := [payload], alerts := [msg] })

/-- Model of `handleMarkAttendance(lectureId)` from `App.jsx`: guard on
the shared `loading` flag, decide PIN mode, then either POST directly or
run the geolocation promise race and POST only on a resolved position. -/
def handleMarkAttendance (u : User) (st : ClientState) (lectureId : ℕ)
    (geo : GeoOutcome) (reply : ServerReply) : ClientState × Effects :=
  if st.loading then (st, { posts := [], alerts := [] })
  else
    let st₁ : ClientState := { st with loading := true }
    if isPinMode u st.attendancePin then
      let r := markAttendanceRequest u st₁ lectureId none none reply
      ({ r.1 with loading := false }, r.2)
    else
      match geo with
      | .position lat lon =>
          let r := markAttendanceRequest u st₁ lectureId (some lat) (some lon) reply
          ({ r.1 with loading := false }, r.2)
      | g => ({ st₁ with loading := false }, { posts := [], alerts := [geoErrorMsg g] })

/-! ## Backend model (spec-modelled: the Django verifier is not in the
repository sources; only the frontend consumes it) -/

/-- Status of an attendance record (spec §3). -/
inductive AttStatus
  | PRESENT
  | LATE
  | ABSENT
deriving DecidableEq, Repr

/-- Method by which an attendance record was created (spec §3). -/
inductive AttMethod
  | GEOLOCATION
  | PIN
  | MANUAL
deriving DecidableEq, Repr

/-- Modelled from the spec: the AttendanceRecord entity (§3), linking
one student to one lecture with status, method, timestamp and optional
captured coordinates.  Timestamps are lecture-local epoch seconds;
coordinates are real-valued degrees. -/
structure AttendanceRecord where
  student : ℕ
  lecture : ℕ
  status : AttStatus
  method : AttMethod
  recordedAt : ℤ
  coords : Option (ℝ × ℝ)

/-- Modelled from the spec: the Lecture entity (§3) with the fields the
verifier consults.  Start/end times are lecture-local epoch seconds (the
IANA-timezone conversion of §4.3 step 3 is folded into this encoding);
`attendance_pin`/`pin_issued_at` are the embedded PIN value. -/
structure Lecture where
  id : ℕ
  course : ℕ
  startTime : ℤ
  endTime : ℤ
  location_lat : ℝ
  location_lon : ℝ
  attendance_radius : ℝ
  attendance_pin : Option String
  pin_issued_at : Option ℤ

/-- The state a marking request executes against: the lecture row and
the stored attendance records. -/
structure SysState where
  lecture : Lecture
  records : List AttendanceRecord

/-- Modelled from the spec: the configurable temporal parameters of the
verifier (§4.3 step 3), in seconds — grace before start, grace after
end, and the late threshold after start. -/
structure AttendanceConfig where
  graceBefore : ℤ
  graceAfter : ℤ
  lateThreshold : ℤ

/-- The rejection taxonomy of `markAttendance` (spec §4.3 / §6);
`AlreadyMarked` reports the status of the existing record. -/
inductive MarkError
  | NotEnrolled
  | AlreadyMarked (existing : AttStatus)
  | OutsideWindow
  | InvalidPin
  | PinExpired
  | OutOfRange
deriving DecidableEq, Repr

/-- The tagged proof variant of a marking request (spec §4.3 / §9). -/
inductive MarkProof
  | pin (code : String)
  | location (lat lon : ℝ)

/-- Modelled from the spec: the fixed PIN validity duration, 10 minutes
from issuance (§3, §4.2), in seconds. -/
def pinValiditySeconds : ℤ := 600

/-- Modelled from the spec: the late downgrade of §4.3 step 3 — more
than `lateThreshold` seconds after start yields LATE, else PRESENT. -/
def decideStatus (cfg : AttendanceConfig) (lec : Lecture) (now : ℤ) : AttStatus :=
  if lec.startTime + cfg.lateThreshold < now then .LATE else .PRESENT

/-- The stored record for a (student, lecture) pair, if any. -/
def findRecord (recs : List AttendanceRecord) (s l : ℕ) : Option AttendanceRecord :=
  recs.find? (fun r => r.student == s && r.lecture == l)

/-- Modelled from the spec: the mean Earth radius in meters (§4.3). -/
def earthRadius : ℝ := 6371000

/-- Degrees to radians. -/
noncomputable def deg2rad (d : ℝ) : ℝ := d * Real.pi / 180

/-- Modelled from the spec: the haversine great-circle distance (§4.3
step 4) between two coordinates given in degrees, in meters, over
idealized real arithmetic. -/
noncomputable def haversineDistance (lat1 lon1 lat2 lon2 : ℝ) : ℝ :=
  let phi1 := deg2rad lat1
  let phi2 := deg2rad lat2
  let dphi := deg2rad (lat2 - lat1)
  let dlam := deg2rad (lon2 - lon1)
  let a := Real.sin (dphi / 2) ^ 2 +
    Real.cos phi1 * Real.cos phi2 * Real.sin (dlam / 2) ^ 2
  2 * earthRadius * Real.arcsin (Real.sqrt a)

/-- Modelled from the spec: `markAttendance(studentId, lectureId, proof)`
(§4.3), the backend decision engine absent from the repository sources.
Checks run in the order the spec gives: enrollment, duplicate, temporal window,
then the proof branch; on success exactly one record is appended and
the lecture row is untouched (PIN expiry is lazy, §4.2/§5). -/
noncomputable def markAttendance (cfg : AttendanceConfig)
    (enrolled : ℕ → ℕ → Bool) (st : SysState) (studentId : ℕ) (now : ℤ)
    (pf : MarkProof) : Except MarkError (AttStatus × AttMethod) × SysState :=
  if enrolled studentId st.lecture.course = false then (.error .NotEnrolled, st)
  else
    match findRecord st.records studentId st.lecture.id with
    | some r => (.error (.AlreadyMarked r.status), st)
    | none =>
      if now < st.lecture.startTime - cfg.graceBefore ∨
          st.lecture.endTime + cfg.graceAfter < now then
        (.error .OutsideWindow, st)
      else
        let status := decideStatus cfg st.lecture now
        match pf with
        | .pin code =>
          match st.lecture.attendance_pin, st.lecture.pin_issued_at with
          | some p, some t =>
            if code ≠ p then (.error .InvalidPin, st)
            else if pinValiditySeconds < now - t then (.error .PinExpired, st)
            else (.ok (status, .PIN),
              ⟨st.lecture,
                { student := studentId, lecture := st.lecture.id, status := status,
                  method := .PIN, recordedAt := now, coords := none } :: st.records⟩)
          | _, _ => (.error .InvalidPin, st)
        | .location lat lon =>
          if haversineDistance st.lecture.location_lat st.lecture.location_lon
              lat lon ≤ st.lecture.attendance_radius then
            (.ok (status, .GEOLOCATION),
              ⟨st.lecture,
                { student := studentId, lecture := st.lecture.id, status := status,
                  method := .GEOLOCATION, recordedAt := now,
                  coords := some (lat, lon) } :: st.records⟩)
          else (.error .OutOfRange, st)

/-! ## Report aggregator model (spec-modelled, §4.5) -/

/-- Rounding to one decimal place over exact rationals. -/
def round1 (x : ℚ) : ℚ := (round (10 * x) : ℤ) / 10

/-- Status of a student for a lecture: that of the stored record, or
ABSENT when no record exists (implicit absence, spec §9). -/
def statusFor (recs : List AttendanceRecord) (s l : ℕ) : AttStatus :=
  match findRecord recs s l with
  | some r => r.status
  | none => .ABSENT

/-- Occurrences of one status in a list of statuses. -/
def countStatus (sts : List AttStatus) (x : AttStatus) : ℕ :=
  (sts.filter (fun y => y = x)).length

/-- One row of the `student_summary` of the course report, as rendered by
`AttendanceReportPage`. -/
structure StudentSummary where
  student : ℕ
  present : ℕ
  absent : ℕ
  late : ℕ
  attendance_percentage : ℚ
deriving Repr

/-- Modelled from the spec: per-student aggregation of `buildReport`
(§4.5) over the completed lectures of a course — counts of PRESENT,
LATE and ABSENT (missing records counted ABSENT) and the percentage
(PRESENT + LATE) / total × 100 rounded to one decimal place. -/
def buildSummary (recs : List AttendanceRecord) (lectures : List ℕ)
    (s : ℕ) : StudentSummary :=
  let sts := lectures.map (statusFor recs s)
  let p := countStatus sts .PRESENT
  let l := countStatus sts .LATE
  let a := countStatus sts .ABSENT
  { student := s, present := p, absent := a, late := l,
    attendance_percentage := round1 (((p : ℚ) + (l : ℚ)) / (lectures.length : ℚ) * 100) }

/-- Modelled from the spec: `buildReport(courseId)` (§4.5) — one
summary row per enrolled student over the completed lectures of the course. -/
def buildReport (recs : List AttendanceRecord) (lectures : List ℕ)
    (students : List ℕ) : List StudentSummary :=
  students.map (buildSummary recs lectures)

/-! ## Concrete sample data used by witnesses -/

/-- The PIN-shaped body a student who entered "42" emits. -/
def samplePinPayload : MarkPayload :=
  { lecture := 1, latitude := .absent, longitude := .absent,
    attendance_pin := .str "42" }

/-- A sample lecture with a freshly issued PIN "42". -/
def lecSample : Lecture :=
  { id := 1, course := 2, startTime := 0, endTime := 3600,
    location_lat := 0, location_lon := 0, attendance_radius := 100,
    attendance_pin := some "42", pin_issued_at := some 0 }

/-- A sample configuration: 15 min grace either side, 10 min late
threshold. -/
def cfgSample : AttendanceConfig :=
  { graceBefore := 900, graceAfter := 900, lateThreshold := 600 }

/-- A sample configuration with a very wide temporal window. -/
def cfgWide : AttendanceConfig :=
  { graceBefore := 1000000, graceAfter := 1000000, lateThreshold := 600 }

/-- The record created by student 7 marking `lecSample` by PIN at 100 s. -/
def recSample : AttendanceRecord :=
  { student := 7, lecture := 1, status := .PRESENT, method := .PIN,
    recordedAt := 100, coords := none }

/-- A sample lecture whose PIN "1234" was issued at 60 s, used for the
late-marking scenario. -/
def lecLate : Lecture :=
  { id := 1, course := 2, startTime := 0, endTime := 3600,
    location_lat := 0, location_lon := 0, attendance_radius := 100,
    attendance_pin := some "1234", pin_issued_at := some 60 }

/-- A sample lecture whose radius is exactly the haversine distance to
the probe point (30.5, 31.5): the probe sits on the geofence boundary. -/
noncomputable def lecGeoBoundary : Lecture :=
  { id := 1, course := 2, startTime := 0, endTime := 3600,
    location_lat := 30, location_lon := 31,
    attendance_radius := haversineDistance 30 31 30.5 31.5,
    attendance_pin := none, pin_issued_at := none }

/-- A sample lecture whose radius stops 1 m short of the haversine
distance to the probe point (30.5, 31.5): the probe is 1 m beyond. -/
noncomputable def lecGeoBeyond : Lecture :=
  { id := 1, course := 2, startTime := 0, endTime := 3600,
    location_lat := 30, location_lon := 31,
    attendance_radius := haversineDistance 30 31 30.5 31.5 - 1,
    attendance_pin := none, pin_issued_at := none }

/-- Sample records: student 7 PRESENT at lectures 1, 2, 3 of a
four-lecture course. -/
def demoRecs : List AttendanceRecord :=
  [ { student := 7, lecture := 1, status := .PRESENT, method := .PIN,
      recordedAt := 0, coords := none },
    { student := 7, lecture := 2, status := .PRESENT, method := .GEOLOCATION,
      recordedAt := 0, coords := none },
    { student := 7, lecture := 3, status := .PRESENT, method := .MANUAL,
      recordedAt := 0, coords := none } ]

/-! ## Helper lemmas about the client proof shapes -/

/-- In PIN mode the serialized `attendance_pin` is a non-empty string:
either the entered PIN or the truthy ADMIN `master_pin`. -/
theorem pinField_of_pinMode (u : User) (pin : String)
    (h : isPinMode u pin = true) :
    ∃ s, pinFieldValue u pin = .str s ∧ s ≠ "" := by
  by_cases hpin : pin = ""
  · subst hpin
    simp only [isPinMode, jsTruthy, Bool.or_eq_true, Bool.and_eq_true,
      decide_eq_true_eq] at h
    rcases h with h | ⟨hrole, hmp⟩
    · simp at h
    · cases hmp' : u.master_pin with
      | none => simp [masterPinTruthy, hmp'] at hmp
      | some s =>
        refine ⟨s, ?_, ?_⟩
        · simp [pinFieldValue, hrole, hmp']
        · simpa [masterPinTruthy, hmp'] using hmp
  · exact ⟨pin, by simp [pinFieldValue, hpin], hpin⟩

/-- In geolocation mode the serialized `attendance_pin` carries no
usable PIN: it is `null` for non-ADMIN callers, and otherwise the raw
falsy `master_pin` value of the ADMIN token (`undefined` or `""`). -/
theorem pinField_of_geoMode (u : User) (pin : String)
    (h : isPinMode u pin = false) :
    (pinFieldValue u pin = .null ∨ pinFieldValue u pin = .undef ∨
      pinFieldValue u pin = .str "") ∧
    (u.role ≠ Role.ADMIN → pinFieldValue u pin = .null) := by
  simp only [isPinMode, jsTruthy, Bool.or_eq_false_iff, Bool.and_eq_false_iff,
    decide_eq_false_iff_not, decide_eq_true_eq] at h
  obtain ⟨hpin, hadm⟩ := h
  replace hpin : pin = "" := by simpa using hpin
  subst hpin
  by_cases hrole : u.role = Role.ADMIN
  · refine ⟨?_, fun hc => absurd hrole hc⟩
    rcases hadm with hadm | hadm
    · exact absurd hrole hadm
    · cases hmp : u.master_pin with
      | none => right; left; simp [pinFieldValue, hrole, hmp]
      | some s =>
        have hs : s = "" := by simpa [masterPinTruthy, hmp] using hadm
        right; right; simp [pinFieldValue, hrole, hmp, hs]
  · exact ⟨Or.inl (by simp [pinFieldValue, hrole]), fun _ => by simp [pinFieldValue, hrole]⟩

/-! ## Claims about the client -/

/-- C2 (counterexample): an ADMIN whose token has no `master_pin` and
who enters no PIN is put in geolocation mode, and the emitted request
carries latitude and longitude together with `attendance_pin` equal to
the raw token value `undefined` — not `null` as the claim states. -/
theorem mark_payload_null_pin_counterexample :
    (handleMarkAttendance ⟨.ADMIN, none⟩ ⟨false, ""⟩ 1 (.position 30 31)
        .success).2.posts
      = [{ lecture := 1, latitude := .num 30, longitude := .num 31,
           attendance_pin := .undef }] ∧
    JsStr.undef ≠ JsStr.null :=
  ⟨by decide, by decide⟩

/-- C2 (amended): every request body emitted by `handleMarkAttendance`
has exactly one proof shape — either PIN mode (a non-empty
`attendance_pin`, latitude/longitude deleted) or geolocation mode
(numeric latitude and longitude, with an `attendance_pin` that holds no
usable PIN: `null` for every non-ADMIN caller, and otherwise the raw
falsy `master_pin` value of the ADMIN token, `undefined` or `""`) — never
both proof kinds at once. -/
theorem mark_payload_proof_shape (u : User) (st : ClientState)
    (lectureId : ℕ) (geo : GeoOutcome) (reply : ServerReply) (p : MarkPayload)
    (hp : p ∈ (handleMarkAttendance u st lectureId geo reply).2.posts) :
    (p.latitude = .absent ∧ p.longitude = .absent ∧
      ∃ s, p.attendance_pin = .str s ∧ s ≠ "")
    ∨ ((∃ x, p.latitude = .num x) ∧ (∃ y, p.longitude = .num y) ∧
        (p.attendance_pin = .null ∨ p.attendance_pin = .undef ∨
          p.attendance_pin = .str "") ∧
        (u.role ≠ Role.ADMIN → p.attendance_pin = .null)) := by
  unfold handleMarkAttendance at hp
  by_cases hl : st.loading
  · simp [hl] at hp
  · by_cases hm : isPinMode u st.attendancePin
    · simp [hl, hm, markAttendanceRequest] at hp
      subst hp
      left
      obtain ⟨s, hs, hsne⟩ := pinField_of_pinMode u st.attendancePin hm
      exact ⟨by simp [buildPayload, hm], by simp [buildPayload, hm],
        s, by simpa [buildPayload] using hs, hsne⟩
    · cases geo with
      | position lat lon =>
        simp [hl, hm, markAttendanceRequest] at hp
        subst hp
        right
        obtain ⟨hfalsy, hnull⟩ := pinField_of_geoMode u st.attendancePin
          (by simpa using hm)
        refine ⟨⟨lat, ?_⟩, ⟨lon, ?_⟩, ?_, ?_⟩
        · simp [buildPayload, hm, coordOf]
        · simp [buildPayload, hm, coordOf]
        · simpa [buildPayload] using hfalsy
        · simpa [buildPayload] using hnull
      | unsupported => simp [hl, hm] at hp
      | permissionDenied => simp [hl, hm] at hp
      | otherError => simp [hl, hm] at hp
      | timeout => simp [hl, hm] at hp

/-- C2 (amended, witness): a student who entered PIN "42" emits exactly
the PIN-shaped request body. -/
theorem mark_payload_proof_shape_witness :
    samplePinPayload ∈
      (handleMarkAttendance (⟨.STUDENT, none⟩ : User)
        (⟨false, "42"⟩ : ClientState) 1 GeoOutcome.timeout
        ServerReply.success).2.posts ∧
    ((samplePinPayload.latitude = .absent ∧ samplePinPayload.longitude = .absent ∧
      ∃ s, samplePinPayload.attendance_pin = .str s ∧ s ≠ "")
    ∨ ((∃ x, samplePinPayload.latitude = .num x) ∧
       (∃ y, samplePinPayload.longitude = .num y) ∧
       (samplePinPayload.attendance_pin = .null ∨
        samplePinPayload.attendance_pin = .undef ∨
        samplePinPayload.attendance_pin = .str "") ∧
       ((⟨.STUDENT, none⟩ : User).role ≠ Role.ADMIN →
        samplePinPayload.attendance_pin = .null))) :=
  ⟨by decide,
    mark_payload_proof_shape ⟨.STUDENT, none⟩ ⟨false, "42"⟩ 1 .timeout
      .success samplePinPayload (by decide)⟩

/-- C7: an ADMIN whose token carries a non-empty `master_pin` and who
enters no PIN always posts in PIN mode, carrying that master PIN, for
any lecture and regardless of the geolocation outcome — one static
credential usable across all lectures. -/
theorem admin_master_pin_bypass (u : User) (st : ClientState) (s : String)
    (lectureId : ℕ) (geo : GeoOutcome) (reply : ServerReply)
    (hrole : u.role = Role.ADMIN) (hmp : u.master_pin = some s) (hs : s ≠ "")
    (hload : st.loading = false) (hentered : st.attendancePin = "") :
    (handleMarkAttendance u st lectureId geo reply).2.posts
      = [{ lecture := lectureId, latitude := .absent, longitude := .absent,
           attendance_pin := .str s }] := by
  have hmode : isPinMode u "" = true := by
    simp [isPinMode, masterPinTruthy, hrole, hmp, hs]
  simp [handleMarkAttendance, hload, hentered, hmode, markAttendanceRequest,
    buildPayload, pinFieldValue, hrole, hmp]

/-- C7 (witness): an ADMIN with master PIN "9999" marking lecture 5
with no entered PIN posts that PIN. -/
theorem admin_master_pin_bypass_witness :
    (⟨.ADMIN, some "9999"⟩ : User).role = Role.ADMIN ∧
    (⟨.ADMIN, some "9999"⟩ : User).master_pin = some "9999" ∧
    "9999" ≠ "" ∧
    (⟨false, ""⟩ : ClientState).loading = false ∧
    (⟨false, ""⟩ : ClientState).attendancePin = "" ∧
    (handleMarkAttendance ⟨.ADMIN, some "9999"⟩ ⟨false, ""⟩ 5 .unsupported
        .success).2.posts
      = [{ lecture := 5, latitude := .absent, longitude := .absent,
           attendance_pin := .str "9999" }] :=
  ⟨rfl, rfl, by decide, rfl, rfl,
    admin_master_pin_bypass _ _ _ _ _ _ rfl rfl (by decide) rfl rfl⟩

/-- C8: when the shared `loading` flag is already true, a further
`handleMarkAttendance` invocation returns at once — no POST, no alert,
and the client state is unchanged. -/
theorem loading_guard_no_request (u : User) (st : ClientState)
    (lectureId : ℕ) (geo : GeoOutcome) (reply : ServerReply)
    (h : st.loading = true) :
    handleMarkAttendance u st lectureId geo reply
      = (st, { posts := [], alerts := [] }) := by
  simp [handleMarkAttendance, h]

/-- C8 (witness): a call while a request is in flight is a no-op. -/
theorem loading_guard_no_request_witness :
    (⟨true, "1234"⟩ : ClientState).loading = true ∧
    handleMarkAttendance ⟨.STUDENT, none⟩ ⟨true, "1234"⟩ 1 (.position 30 31)
        .success
      = (⟨true, "1234"⟩, { posts := [], alerts := [] }) :=
  ⟨rfl, loading_guard_no_request _ _ _ _ _ rfl⟩

/-- C9: in geolocation mode, when the browser lacks geolocation, the
position request fails or the 15-second race times out, no POST to
`/attendance/mark/` is emitted and the matching error alert is shown. -/
theorem geo_failure_no_post (u : User) (st : ClientState) (lectureId : ℕ)
    (geo : GeoOutcome) (reply : ServerReply)
    (hload : st.loading = false) (hmode : isPinMode u st.attendancePin = false)
    (hfail : ∀ lat lon : ℚ, geo ≠ .position lat lon) :
    (handleMarkAttendance u st lectureId geo reply).2.posts = [] ∧
    (handleMarkAttendance u st lectureId geo reply).2.alerts
      = [geoErrorMsg geo] := by
  cases geo with
  | position lat lon => exact absurd rfl (hfail lat lon)
  | unsupported => simp [handleMarkAttendance, hload, hmode]
  | permissionDenied => simp [handleMarkAttendance, hload, hmode]
  | otherError => simp [handleMarkAttendance, hload, hmode]
  | timeout => simp [handleMarkAttendance, hload, hmode]

/-- C9 (witness): a student attempt whose geolocation race times out
posts nothing and shows the timeout alert. -/
theorem geo_failure_no_post_witness :
    (⟨false, ""⟩ : ClientState).loading = false ∧
    isPinMode ⟨.STUDENT, none⟩ (⟨false, ""⟩ : ClientState).attendancePin = false ∧
    (handleMarkAttendance ⟨.STUDENT, none⟩ ⟨false, ""⟩ 1 .timeout
        .success).2.posts = [] ∧
    (handleMarkAttendance ⟨.STUDENT, none⟩ ⟨false, ""⟩ 1 .timeout
        .success).2.alerts = [geoErrorMsg .timeout] :=
  ⟨rfl, by decide,
    (geo_failure_no_post _ _ _ _ _ rfl (by decide)
      (fun _ _ h => GeoOutcome.noConfusion h)).1,
    (geo_failure_no_post _ _ _ _ _ rfl (by decide)
      (fun _ _ h => GeoOutcome.noConfusion h)).2⟩

/-- C10: whenever an invocation of `handleMarkAttendance` actually
emits a marking request — whether the server accepts or rejects it —
the resulting client state has the entered PIN reset to the empty
string (the `finally` block of `markAttendanceRequest`). -/
theorem pin_cleared_after_request (u : User) (st : ClientState)
    (lectureId : ℕ) (geo : GeoOutcome) (reply : ServerReply)
    (h : (handleMarkAttendance u st lectureId geo reply).2.posts ≠ []) :
    (handleMarkAttendance u st lectureId geo reply).1.attendancePin = "" := by
  unfold handleMarkAttendance at h ⊢
  by_cases hl : st.loading
  · simp [hl] at h
  · by_cases hm : isPinMode u st.attendancePin
    · simp [hl, hm, markAttendanceRequest]
    · cases geo with
      | position lat lon => simp [hl, hm, markAttendanceRequest]
      | unsupported => simp [hl, hm] at h
      | permissionDenied => simp [hl, hm] at h
      | otherError => simp [hl, hm] at h
      | timeout => simp [hl, hm] at h

/-- C10 (witness): after a rejected PIN request the entered PIN is
cleared. -/
theorem pin_cleared_after_request_witness :
    (handleMarkAttendance ⟨.STUDENT, none⟩ ⟨false, "42"⟩ 1 .timeout
        (.failure (some "Invalid PIN."))).2.posts ≠ [] ∧
    (handleMarkAttendance ⟨.STUDENT, none⟩ ⟨false, "42"⟩ 1 .timeout
        (.failure (some "Invalid PIN."))).1.attendancePin = "" :=
  ⟨by decide, pin_cleared_after_request _ _ _ _ _ (by decide)⟩

/-! ## Helper lemmas about the verifier -/

/-- A record matching the pair heads the list, so lookup returns it. -/
theorem findRecord_cons_self (rec : AttendanceRecord)
    (recs : List AttendanceRecord) (s l : ℕ)
    (hs : rec.student = s) (hl : rec.lecture = l) :
    findRecord (rec :: recs) s l = some rec := by
  simp [findRecord, List.find?_cons, hs, hl]

/-- Shape of every successful `markAttendance` call: the student was
enrolled, the lecture row is untouched, and exactly one new record for
this (student, lecture) pair, carrying the returned status, was
prepended to the store. -/
theorem mark_ok_shape {cfg : AttendanceConfig} {enr : ℕ → ℕ → Bool}
    {st : SysState} {s : ℕ} {now : ℤ} {pf : MarkProof}
    {stat : AttStatus} {meth : AttMethod} {st' : SysState}
    (h : markAttendance cfg enr st s now pf = (.ok (stat, meth), st')) :
    enr s st.lecture.course = true ∧ st'.lecture = st.lecture ∧
    ∃ rec, st'.records = rec :: st.records ∧ rec.student = s ∧
      rec.lecture = st.lecture.id ∧ rec.status = stat := by
  unfold markAttendance at h
  by_cases henr : enr s st.lecture.course = false
  · rw [if_pos henr] at h; simp at h
  · rw [if_neg henr] at h
    have henr' : enr s st.lecture.course = true := by
      cases hb : enr s st.lecture.course with
      | false => exact absurd hb henr
      | true => rfl
    refine ⟨henr', ?_⟩
    cases hfind : findRecord st.records s st.lecture.id with
    | some r => rw [hfind] at h; simp only [] at h; simp at h
    | none =>
      rw [hfind] at h
      simp only [] at h
      by_cases hwin : now < st.lecture.startTime - cfg.graceBefore ∨
          st.lecture.endTime + cfg.graceAfter < now
      · rw [if_pos hwin] at h; simp at h
      · rw [if_neg hwin] at h
        cases pf with
        | pin code =>
          simp only [] at h
          cases hpin : st.lecture.attendance_pin with
          | none => rw [hpin] at h; simp only [] at h; simp at h
          | some p =>
            cases hiss : st.lecture.pin_issued_at with
            | none => rw [hpin, hiss] at h; simp only [] at h; simp at h
            | some t =>
              rw [hpin, hiss] at h
              simp only [] at h
              by_cases hc : code ≠ p
              · rw [if_pos hc] at h; simp at h
              · rw [if_neg hc] at h
                by_cases hexp : pinValiditySeconds < now - t
                · rw [if_pos hexp] at h; simp at h
                · rw [if_neg hexp] at h
                  simp only [Prod.mk.injEq, Except.ok.injEq] at h
                  obtain ⟨⟨hstat, hmeth⟩, hst⟩ := h
                  subst hst
                  exact ⟨rfl, _, rfl, rfl, rfl, hstat⟩
        | location lat lon =>
          simp only [] at h
          by_cases hd : haversineDistance st.lecture.location_lat
              st.lecture.location_lon lat lon ≤ st.lecture.attendance_radius
          · rw [if_pos hd] at h
            simp only [Prod.mk.injEq, Except.ok.injEq] at h
            obtain ⟨⟨hstat, hmeth⟩, hst⟩ := h
            subst hst
            exact ⟨rfl, _, rfl, rfl, rfl, hstat⟩
          · rw [if_neg hd] at h; simp at h

/-! ## Claims about the verifier, the PIN window, the geofence and the
report (backend spec-modelled) -/

/-- C1: at most one record per (student, lecture) pair — after a
successful `markAttendance`, any second call for the same pair, with
any proof and at any time, creates no second record, overwrites
nothing, and returns `AlreadyMarked` reporting the existing status. -/
theorem mark_duplicate_suppressed (cfg : AttendanceConfig)
    (enr : ℕ → ℕ → Bool) (st : SysState) (s : ℕ) (now : ℤ) (pf : MarkProof)
    (stat : AttStatus) (meth : AttMethod) (st' : SysState)
    (h : markAttendance cfg enr st s now pf = (.ok (stat, meth), st'))
    (now' : ℤ) (pf' : MarkProof) :
    markAttendance cfg enr st' s now' pf'
      = (.error (.AlreadyMarked stat), st') := by
  obtain ⟨henr, hlec, rec, hrecs, hstu, hlecid, hstat⟩ := mark_ok_shape h
  unfold markAttendance
  rw [hlec, henr, hrecs, findRecord_cons_self rec st.records s st.lecture.id
    hstu hlecid]
  simp [hstat]

/-- C1 (witness): student 7 marks `lecSample` by PIN; the identical
second call returns `AlreadyMarked PRESENT` and leaves the single
record in place. -/
theorem mark_duplicate_suppressed_witness :
    markAttendance cfgSample (fun _ _ => true) ⟨lecSample, []⟩ 7 100 (.pin "42")
      = (.ok (.PRESENT, .PIN), ⟨lecSample, [recSample]⟩) ∧
    markAttendance cfgSample (fun _ _ => true) ⟨lecSample, [recSample]⟩ 7 200
        (.pin "42")
      = (.error (.AlreadyMarked .PRESENT), ⟨lecSample, [recSample]⟩) :=
  ⟨rfl,
    mark_duplicate_suppressed cfgSample (fun _ _ => true) ⟨lecSample, []⟩ 7 100
      (.pin "42") .PRESENT .PIN ⟨lecSample, [recSample]⟩ rfl 200 (.pin "42")⟩

/-- C3 (code bug): marking `lecLate` at start + late-threshold + 1
minute stores and returns status LATE, yet the client success alert
for the very same marking is the constant string claiming the student
is Present. -/
theorem late_status_misreported :
    (markAttendance cfgSample (fun _ _ => true) ⟨lecLate, []⟩ 7 660
        (.pin "1234")).1 = .ok (.LATE, .PIN) ∧
    (handleMarkAttendance ⟨.STUDENT, none⟩ ⟨false, "1234"⟩ 1 .timeout
        .success).2.alerts
      = ["Attendance marked successfully! You are Present."] :=
  ⟨rfl, by decide⟩

/-- C4: when the stored lecture PIN was issued at time t, a correct-PIN
attempt inside the temporal window succeeds at t + 599 s (validity
10 min − 1 s) but at t + 601 s (validity + 1 s) is rejected with
`PinExpired`, the state — the stored PIN included — left untouched. -/
theorem pin_window_boundary (cfg : AttendanceConfig) (enr : ℕ → ℕ → Bool)
    (st : SysState) (s : ℕ) (p : String) (t : ℤ)
    (hpin : st.lecture.attendance_pin = some p)
    (hiss : st.lecture.pin_issued_at = some t)
    (henr : enr s st.lecture.course = true)
    (hdup : findRecord st.records s st.lecture.id = none)
    (hw1 : st.lecture.startTime - cfg.graceBefore ≤ t + 599)
    (hw2 : t + 601 ≤ st.lecture.endTime + cfg.graceAfter) :
    markAttendance cfg enr st s (t + 599) (.pin p)
      = (.ok (decideStatus cfg st.lecture (t + 599), .PIN),
         ⟨st.lecture,
           { student := s, lecture := st.lecture.id,
             status := decideStatus cfg st.lecture (t + 599), method := .PIN,
             recordedAt := t + 599, coords := none } :: st.records⟩) ∧
    markAttendance cfg enr st s (t + 601) (.pin p)
      = (.error .PinExpired, st) := by
  have hfresh : ¬(pinValiditySeconds < t + 599 - t) := by
    simp only [pinValiditySeconds]; omega
  have hstale : pinValiditySeconds < t + 601 - t := by
    simp only [pinValiditySeconds]; omega
  constructor
  · unfold markAttendance
    rw [henr, hdup, hpin, hiss]
    have hwin : ¬(t + 599 < st.lecture.startTime - cfg.graceBefore ∨
        st.lecture.endTime + cfg.graceAfter < t + 599) := by omega
    simp [hwin, hfresh]
    simp only [pinValiditySeconds]
    omega
  · unfold markAttendance
    rw [henr, hdup, hpin, hiss]
    have hwin : ¬(t + 601 < st.lecture.startTime - cfg.graceBefore ∨
        st.lecture.endTime + cfg.graceAfter < t + 601) := by omega
    simp [hwin, hstale]
    simp only [pinValiditySeconds]
    omega

/-- C4 (witness): the PIN of `lecSample`, issued at 0, is accepted at
599 s and rejected as expired at 601 s with the state untouched. -/
theorem pin_window_boundary_witness :
    markAttendance cfgWide (fun _ _ => true) ⟨lecSample, []⟩ 7 (0 + 599)
        (.pin "42")
      = (.ok (.PRESENT, .PIN),
         ⟨lecSample,
           [{ student := 7, lecture := 1, status := .PRESENT, method := .PIN,
              recordedAt := 0 + 599, coords := none }]⟩) ∧
    markAttendance cfgWide (fun _ _ => true) ⟨lecSample, []⟩ 7 (0 + 601)
        (.pin "42")
      = (.error .PinExpired, ⟨lecSample, []⟩) :=
  pin_window_boundary cfgWide (fun _ _ => true) ⟨lecSample, []⟩ 7 "42" 0
    rfl rfl rfl rfl (by decide) (by decide)

/-- C5: inside the temporal window and with no prior record, a
geolocation attempt is decided by comparing the haversine great-circle
distance to the lecture radius with ≤ — at a distance equal to the
radius the point is accepted, at radius + 1 m it is rejected with
`OutOfRange`, and in general acceptance holds exactly on ≤. -/
theorem geo_radius_boundary (cfg : AttendanceConfig) (enr : ℕ → ℕ → Bool)
    (st : SysState) (s : ℕ) (now : ℤ) (lat lon : ℝ)
    (henr : enr s st.lecture.course = true)
    (hdup : findRecord st.records s st.lecture.id = none)
    (hw1 : st.lecture.startTime - cfg.graceBefore ≤ now)
    (hw2 : now ≤ st.lecture.endTime + cfg.graceAfter) :
    (haversineDistance st.lecture.location_lat st.lecture.location_lon lat lon
        ≤ st.lecture.attendance_radius →
      markAttendance cfg enr st s now (.location lat lon)
        = (.ok (decideStatus cfg st.lecture now, .GEOLOCATION),
           ⟨st.lecture,
             { student := s, lecture := st.lecture.id,
               status := decideStatus cfg st.lecture now,
               method := .GEOLOCATION, recordedAt := now,
               coords := some (lat, lon) } :: st.records⟩)) ∧
    (st.lecture.attendance_radius <
        haversineDistance st.lecture.location_lat st.lecture.location_lon
          lat lon →
      markAttendance cfg enr st s now (.location lat lon)
        = (.error .OutOfRange, st)) ∧
    (haversineDistance st.lecture.location_lat st.lecture.location_lon lat lon
        = st.lecture.attendance_radius →
      markAttendance cfg enr st s now (.location lat lon)
        = (.ok (decideStatus cfg st.lecture now, .GEOLOCATION),
           ⟨st.lecture,
             { student := s, lecture := st.lecture.id,
               status := decideStatus cfg st.lecture now,
               method := .GEOLOCATION, recordedAt := now,
               coords := some (lat, lon) } :: st.records⟩)) ∧
    (haversineDistance st.lecture.location_lat st.lecture.location_lon lat lon
        = st.lecture.attendance_radius + 1 →
      markAttendance cfg enr st s now (.location lat lon)
        = (.error .OutOfRange, st)) := by
  have hwin : ¬(now < st.lecture.startTime - cfg.graceBefore ∨
      st.lecture.endTime + cfg.graceAfter < now) := by omega
  have haccept : ∀ hle : haversineDistance st.lecture.location_lat
      st.lecture.location_lon lat lon ≤ st.lecture.attendance_radius,
      markAttendance cfg enr st s now (.location lat lon)
        = (.ok (decideStatus cfg st.lecture now, .GEOLOCATION),
           ⟨st.lecture,
             { student := s, lecture := st.lecture.id,
               status := decideStatus cfg st.lecture now,
               method := .GEOLOCATION, recordedAt := now,
               coords := some (lat, lon) } :: st.records⟩) := by
    intro hle
    unfold markAttendance
    rw [henr, hdup]
    simp [hwin, hle]
  have hreject : ∀ hlt : st.lecture.attendance_radius <
      haversineDistance st.lecture.location_lat st.lecture.location_lon lat lon,
      markAttendance cfg enr st s now (.location lat lon)
        = (.error .OutOfRange, st) := by
    intro hlt
    unfold markAttendance
    rw [henr, hdup]
    simp [hwin, not_le.mpr hlt]
  exact ⟨haccept, hreject,
    fun heq => haccept (le_of_eq heq),
    fun heq => hreject (heq ▸ lt_add_one st.lecture.attendance_radius)⟩

/-- C5 (witness): the probe point on the boundary of `lecGeoBoundary`
is accepted; the same point, 1 m beyond the radius of `lecGeoBeyond`,
is rejected with `OutOfRange`. -/
theorem geo_radius_boundary_witness :
    markAttendance cfgWide (fun _ _ => true) ⟨lecGeoBoundary, []⟩ 7 100
        (.location 30.5 31.5)
      = (.ok (.PRESENT, .GEOLOCATION),
         ⟨lecGeoBoundary,
           [{ student := 7, lecture := 1, status := .PRESENT,
              method := .GEOLOCATION, recordedAt := 100,
              coords := some (30.5, 31.5) }]⟩) ∧
    markAttendance cfgWide (fun _ _ => true) ⟨lecGeoBeyond, []⟩ 7 100
        (.location 30.5 31.5)
      = (.error .OutOfRange, ⟨lecGeoBeyond, []⟩) :=
  ⟨(geo_radius_boundary cfgWide (fun _ _ => true) ⟨lecGeoBoundary, []⟩ 7 100
      30.5 31.5 rfl rfl (by decide) (by decide)).2.2.1 rfl,
   (geo_radius_boundary cfgWide (fun _ _ => true) ⟨lecGeoBeyond, []⟩ 7 100
      30.5 31.5 rfl rfl (by decide) (by decide)).2.2.2
     (show haversineDistance 30 31 30.5 31.5
        = haversineDistance 30 31 30.5 31.5 - 1 + 1 by ring)⟩

/-- The three status counts of any status list partition its length. -/
theorem countStatus_partition (sts : List AttStatus) :
    countStatus sts .PRESENT + countStatus sts .LATE + countStatus sts .ABSENT
      = sts.length := by
  induction sts with
  | nil => rfl
  | cons a l ih =>
    cases a <;> simp [countStatus, List.filter_cons] at ih ⊢ <;> omega

/-- Student 7, present at 3 of the 4 completed demo lectures, scores
exactly 75.0 percent. -/
theorem demo_percentage :
    (buildSummary demoRecs [1, 2, 3, 4] 7).attendance_percentage = 75 := by
  have hp : countStatus (List.map (statusFor demoRecs 7) [1, 2, 3, 4])
      AttStatus.PRESENT = 3 := by decide
  have hl : countStatus (List.map (statusFor demoRecs 7) [1, 2, 3, 4])
      AttStatus.LATE = 0 := by decide
  simp only [buildSummary]
  rw [hp, hl]
  norm_num [round1, round_eq]

/-- C6: in every course report the percentage of each student is
(PRESENT + LATE) / completed lectures × 100 rounded to one decimal
place, a lecture without a record counts as ABSENT (the three counts
partition the completed lectures), and a student present at 3 of 4
completed sessions scores 75.0. -/
theorem report_percentage (recs : List AttendanceRecord) (lectures : List ℕ)
    (students : List ℕ) (s : ℕ) (hs : s ∈ students) :
    buildSummary recs lectures s ∈ buildReport recs lectures students ∧
    (buildSummary recs lectures s).attendance_percentage
      = round1 ((((buildSummary recs lectures s).present : ℚ) +
          ((buildSummary recs lectures s).late : ℚ)) /
          (lectures.length : ℚ) * 100) ∧
    (buildSummary recs lectures s).present + (buildSummary recs lectures s).late
        + (buildSummary recs lectures s).absent = lectures.length ∧
    (∀ l ∈ lectures, findRecord recs s l = none →
      statusFor recs s l = .ABSENT) ∧
    (buildSummary demoRecs [1, 2, 3, 4] 7).attendance_percentage = 75 := by
  refine ⟨List.mem_map_of_mem _ hs, rfl, ?_, ?_, demo_percentage⟩
  · simpa [buildSummary] using
      countStatus_partition (lectures.map (statusFor recs s))
  · intro l hl hnone
    simp [statusFor, hnone]

/-- C6 (witness): for the demo course the three counts of student 7
partition the four completed lectures. -/
theorem report_percentage_witness :
    (7 : ℕ) ∈ [7] ∧
    (buildSummary demoRecs [1, 2, 3, 4] 7).present +
        (buildSummary demoRecs [1, 2, 3, 4] 7).late +
        (buildSummary demoRecs [1, 2, 3, 4] 7).absent = 4 :=
  ⟨by decide, (report_percentage demoRecs [1, 2, 3, 4] [7] 7 (by decide)).2.2.1⟩

end SmartPortal
